import Mathlib

/-!
Verification of the language-toggle script of a static portfolio site
(`src/assets/site.js`).  The script shows or hides DOM elements carrying the
classes `lang-fr` / `lang-en`, mirrors the active language into the document
language attribute, persists the choice under the storage key
`portfolio_lang`, and stamps the current year into the elements with ids
`year` and `year-fr`.

The DOM is embedded shallowly: an element records the two class markers, an
optional id, its inline display string and its text content; the document is
a list of elements plus the root language attribute; storage holds the value
of the single key together with two flags saying whether a read or a write
throws.  All operations are total Lean functions, which models the fact that
the script catches every storage exception and never throws.
-/

namespace Portfolio

/-- A DOM element as far as `site.js` observes it: whether it carries the
class `lang-fr`, whether it carries `lang-en`, its id attribute, its inline
`style.display` value and its `textContent`. -/
structure Elem where
  isFr : Bool
  isEn : Bool
  id : Option String
  display : String
  text : String
deriving DecidableEq

/-- The browser `localStorage` as the script sees it: the value stored under
the key `portfolio_lang` (`none` when absent) and flags telling whether
`getItem` resp. `setItem` throw. -/
structure Storage where
  val : Option String
  getThrows : Bool
  setThrows : Bool
deriving DecidableEq

/-- The document: its elements and the root `lang` attribute
(`document.documentElement.lang`). -/
structure Doc where
  elems : List Elem
  lang : String
deriving DecidableEq

/-- The whole mutable state touched by the script. -/
structure State where
  doc : Doc
  store : Storage
deriving DecidableEq

/-- The per-element effect of `setLang`: the `fr.forEach` assignment followed
by the `en.forEach` assignment (so on an element carrying both classes the
`lang-en` assignment wins, exactly as in the source, where the `en` loop runs
second). -/
def updateDisplays (showFR : Bool) (e : Elem) : Elem :=
  let e1 := if e.isFr then { e with display := if showFR then "" else "none" } else e
  if e1.isEn then { e1 with display := if showFR then "none" else "" } else e1

/-- `setLang(next)` from `site.js`: computes `showFR = (next === 'fr')`,
rewrites the display of every `lang-fr` and `lang-en` element, sets the root
language attribute, and writes `'fr'`/`'en'` to storage unless the write
throws (in which case the exception is caught and ignored). -/
def setLang (next : String) (s : State) : State :=
  let showFR : Bool := next = "fr"
  { doc := { elems := s.doc.elems.map (updateDisplays showFR)
           , lang := if showFR then "fr" else "en" }
  , store := if s.store.setThrows then s.store
             else { s.store with val := some (if showFR then "fr" else "en") } }

/-- `toggleLanguage()` from `site.js`: reads the current root language
attribute, normalises every value other than `'fr'` to `'en'`, and applies
the opposite language. -/
def toggleLanguage (s : State) : State :=
  let current : String := if s.doc.lang = "fr" then "fr" else "en"
  setLang (if current = "fr" then "en" else "fr") s

/-- `document.getElementById(i)` followed by `el.textContent = t` when the
element exists: replaces the text of the first element carrying id `i`; a
document without such an element is left unchanged. -/
def setTextById (i t : String) : List Elem → List Elem
  | [] => []
  | e :: rest =>
    if e.id = some i then { e with text := t } :: rest
    else e :: setTextById i t rest

/-- `document.getElementById(i).textContent`: the text of the first element
carrying id `i`, `none` when absent. -/
def getTextById (i : String) : List Elem → Option String
  | [] => none
  | e :: rest => if e.id = some i then some e.text else getTextById i rest

/-- `init()` from `site.js`, with the wall clock made explicit as the `year`
argument (`new Date().getFullYear()`): stamps `String(year)` into the
elements with ids `year` and `year-fr` when present, reads the stored
preference (falling back to `'en'` when the read throws), and applies
`'fr'` exactly when the resolved value is the string `'fr'`. -/
def init (year : Nat) (s : State) : State :=
  let y := toString year
  let elems1 := setTextById "year" y s.doc.elems
  let elems2 := setTextById "year-fr" y elems1
  let saved : Option String := if s.store.getThrows then some "en" else s.store.val
  setLang (if saved = some "fr" then "fr" else "en")
    { doc := { elems := elems2, lang := s.doc.lang }, store := s.store }

/-- Well-formedness of the document the spec presupposes: no element is
tagged for both languages at once. -/
def noDualTags (es : List Elem) : Prop :=
  ∀ e ∈ es, e.isFr = true → e.isEn = false

instance (es : List Elem) : Decidable (noDualTags es) := by
  unfold noDualTags
  infer_instance

/-- The visibility pattern `applyLanguage(v)` is meant to establish: every
French-tagged element has its inline display cleared when `v = "fr"` and set
to `"none"` otherwise, and symmetrically for English-tagged elements. -/
def displaysMatch (v : String) (es : List Elem) : Prop :=
  ∀ e ∈ es,
    (e.isFr = true → e.display = (if v = "fr" then "" else "none")) ∧
    (e.isEn = true → e.display = (if v = "fr" then "none" else ""))

/-- The spec invariant: the root language attribute is `'en'` or `'fr'` and
exactly the elements tagged for it are visible. -/
def langInvariant (s : State) : Prop :=
  (s.doc.lang = "en" ∨ s.doc.lang = "fr") ∧ displaysMatch s.doc.lang s.doc.elems

/-- The state `init` passes to `setLang`, after both year stamps. -/
def stamped (year : Nat) (s : State) : State :=
  { doc := { elems := setTextById "year-fr" (toString year)
                (setTextById "year" (toString year) s.doc.elems)
           , lang := s.doc.lang }
  , store := s.store }

/-- The part of an element the language operations must not touch: id, text
and tags always, and additionally the display when the element carries
neither language tag. -/
def untouched (a b : Elem) : Prop :=
  a.id = b.id ∧ a.text = b.text ∧ a.isFr = b.isFr ∧ a.isEn = b.isEn ∧
    (a.isFr = false → a.isEn = false → a.display = b.display)

/-- Sample document used by the witnesses: one French element, one English
element, two untagged year placeholders. -/
def sampleElems : List Elem :=
  [ { isFr := true, isEn := false, id := none, display := "none", text := "bonjour" }
  , { isFr := false, isEn := true, id := none, display := "", text := "hello" }
  , { isFr := false, isEn := false, id := some "year", display := "", text := "" }
  , { isFr := false, isEn := false, id := some "year-fr", display := "", text := "" } ]

/-- Sample state: English page, nothing stored, storage healthy. -/
def sampleState : State :=
  { doc := { elems := sampleElems, lang := "en" }
  , store := { val := none, getThrows := false, setThrows := false } }

/-- State whose storage write throws, used by the C4 witness. -/
def throwingState : State :=
  { doc := { elems := sampleElems, lang := "en" }
  , store := { val := some "en", getThrows := false, setThrows := true } }

/-- State whose language attribute is `'fr'`, used by the C5 witness. -/
def frenchState : State :=
  { doc := { elems := sampleElems, lang := "fr" }
  , store := { val := some "fr", getThrows := false, setThrows := false } }

/-- State whose storage read throws, used by the C3 witness. -/
def unreadableState : State :=
  { doc := { elems := sampleElems, lang := "fr" }
  , store := { val := some "fr", getThrows := true, setThrows := false } }

/-- State with `'fr'` stored and a healthy storage, used by the C6 witness. -/
def storedFrenchState : State :=
  { doc := { elems := sampleElems, lang := "en" }
  , store := { val := some "fr", getThrows := false, setThrows := false } }

/-- Elements of a state in which the visible elements do not agree with the
language attribute: the attribute will say English while the French element
is the visible one. -/
def mismatchedElems : List Elem :=
  [ { isFr := true, isEn := false, id := none, display := "", text := "bonjour" }
  , { isFr := false, isEn := true, id := none, display := "none", text := "hello" } ]

/-- A state whose visible set disagrees with its language attribute:
`toggleLanguage` twice does not restore this visible set. -/
def mismatchedState : State :=
  { doc := { elems := mismatchedElems, lang := "en" }
  , store := { val := none, getThrows := false, setThrows := false } }

/- ### Helper lemmas about the per-element update -/

theorem updateDisplays_isFr (b : Bool) (e : Elem) :
    (updateDisplays b e).isFr = e.isFr := by
  rcases e with ⟨f, en, i, d, t⟩
  cases f <;> cases en <;> simp [updateDisplays]

theorem updateDisplays_isEn (b : Bool) (e : Elem) :
    (updateDisplays b e).isEn = e.isEn := by
  rcases e with ⟨f, en, i, d, t⟩
  cases f <;> cases en <;> simp [updateDisplays]

theorem updateDisplays_id (b : Bool) (e : Elem) :
    (updateDisplays b e).id = e.id := by
  rcases e with ⟨f, en, i, d, t⟩
  cases f <;> cases en <;> simp [updateDisplays]

theorem updateDisplays_text (b : Bool) (e : Elem) :
    (updateDisplays b e).text = e.text := by
  rcases e with ⟨f, en, i, d, t⟩
  cases f <;> cases en <;> simp [updateDisplays]

theorem updateDisplays_untagged (b : Bool) (e : Elem)
    (hf : e.isFr = false) (he : e.isEn = false) :
    updateDisplays b e = e := by
  rcases e with ⟨f, en, i, d, t⟩
  simp only at hf he
  subst hf; subst he
  simp [updateDisplays]

theorem updateDisplays_fr_display (b : Bool) (e : Elem)
    (hf : e.isFr = true) (he : e.isEn = false) :
    (updateDisplays b e).display = (if b then "" else "none") := by
  rcases e with ⟨f, en, i, d, t⟩
  simp only at hf he
  subst hf; subst he
  simp [updateDisplays]

theorem updateDisplays_en_display (b : Bool) (e : Elem)
    (he : e.isEn = true) :
    (updateDisplays b e).display = (if b then "none" else "") := by
  rcases e with ⟨f, en, i, d, t⟩
  simp only at he
  subst he
  cases f <;> simp [updateDisplays]

theorem updateDisplays_comp (b c : Bool) (e : Elem) :
    updateDisplays b (updateDisplays c e) = updateDisplays b e := by
  rcases e with ⟨f, en, i, d, t⟩
  cases f <;> cases en <;> cases b <;> cases c <;> simp [updateDisplays]

/-- Core visibility lemma: after `setLang v`, the displays match the
normalised language, provided no element carries both tags. -/
theorem setLang_displaysMatch (v : String) (s : State)
    (hd : noDualTags s.doc.elems) :
    displaysMatch (if v = "fr" then "fr" else "en") (setLang v s).doc.elems := by
  intro e he
  simp only [setLang, List.mem_map] at he
  obtain ⟨a, ha, rfl⟩ := he
  constructor
  · intro hf
    rw [updateDisplays_isFr] at hf
    rw [updateDisplays_fr_display _ _ hf (hd a ha hf)]
    by_cases hv : v = "fr" <;> simp [hv]
  · intro hene
    rw [updateDisplays_isEn] at hene
    rw [updateDisplays_en_display _ _ hene]
    by_cases hv : v = "fr" <;> simp [hv]

theorem setLang_lang (v : String) (s : State) :
    (setLang v s).doc.lang = (if v = "fr" then "fr" else "en") := by
  by_cases hv : v = "fr" <;> simp [setLang, hv]

/-- Claim C1: for a preference value `v` that is `'en'` or `'fr'`,
`applyLanguage(v)` (i.e. `setLang`) makes exactly the elements tagged for
`v` visible (inline display cleared), hides every element tagged for the
other language (inline display `'none'`), and sets the document language
attribute to `v`. -/
theorem setLang_applies_language (v : String) (s : State)
    (hv : v = "en" ∨ v = "fr") (hd : noDualTags s.doc.elems) :
    (setLang v s).doc.lang = v ∧ displaysMatch v (setLang v s).doc.elems := by
  have h1 := setLang_lang v s
  have h2 := setLang_displaysMatch v s hd
  rcases hv with rfl | rfl
  · simpa using ⟨h1, h2⟩
  · simpa using ⟨h1, h2⟩

/-- Witness for C1 at the concrete input `v = "fr"` on `sampleState`. -/
theorem setLang_applies_language_witness :
    (setLang "fr" sampleState).doc.lang = "fr" ∧
      displaysMatch "fr" (setLang "fr" sampleState).doc.elems :=
  setLang_applies_language "fr" sampleState (Or.inr rfl) (by decide)

/-- Claim C4: when the storage write throws (`setItem` raises), `setLang`
still completes the visibility updates and still sets the document language
attribute, the exception is swallowed, and the storage content is left
unchanged.  `setLang` being a total function is the embedding of the fact
that no error propagates to the caller. -/
theorem setLang_write_failure_ok (v : String) (s : State)
    (hv : v = "en" ∨ v = "fr")
    (hthrow : s.store.setThrows = true) (hd : noDualTags s.doc.elems) :
    (setLang v s).store = s.store ∧
    (setLang v s).doc.lang = v ∧ displaysMatch v (setLang v s).doc.elems := by
  refine ⟨by simp [setLang, hthrow], ?_, ?_⟩
  · have h1 := setLang_lang v s
    rcases hv with rfl | rfl <;> simpa using h1
  · have h2 := setLang_displaysMatch v s hd
    rcases hv with rfl | rfl <;> simpa using h2

/-- Witness for C4 at the concrete input `v = "fr"` on `throwingState`. -/
theorem setLang_write_failure_ok_witness :
    (setLang "fr" throwingState).store = throwingState.store ∧
    (setLang "fr" throwingState).doc.lang = "fr" ∧
      displaysMatch "fr" (setLang "fr" throwingState).doc.elems :=
  setLang_write_failure_ok "fr" throwingState (Or.inr rfl) (by decide) (by decide)

/-- Claim C9: whenever the storage write succeeds, the value stored under the
preference key is exactly the string `'en'` or the string `'fr'`, for every
input `v` of `applyLanguage`. -/
theorem setLang_stores_only_valid (v : String) (s : State)
    (h : s.store.setThrows = false) :
    (setLang v s).store.val = some "en" ∨ (setLang v s).store.val = some "fr" := by
  by_cases hv : v = "fr"
  · right; simp [setLang, hv, h]
  · left; simp [setLang, hv, h]

/-- Witness for C9 at the concrete input `v = "klingon"` on `sampleState`. -/
theorem setLang_stores_only_valid_witness :
    (setLang "klingon" sampleState).store.val = some "en" ∨
      (setLang "klingon" sampleState).store.val = some "fr" :=
  setLang_stores_only_valid "klingon" sampleState (by decide)

/-- Claim C5: `toggleLanguage` is exactly `setLang` applied to the opposite
of the normalised current language attribute (any attribute other than
`'fr'` counts as English); in particular, starting from attribute `'fr'`,
afterwards the attribute is `'en'` and the English-tagged elements are
visible while the French-tagged ones are hidden. -/
theorem toggleLanguage_spec (s : State) (hd : noDualTags s.doc.elems) :
    toggleLanguage s = setLang (if s.doc.lang = "fr" then "en" else "fr") s ∧
    (s.doc.lang = "fr" →
      (toggleLanguage s).doc.lang = "en" ∧
        displaysMatch "en" (toggleLanguage s).doc.elems) := by
  constructor
  · by_cases h : s.doc.lang = "fr" <;> simp [toggleLanguage, h]
  · intro h
    have heq : toggleLanguage s = setLang "en" s := by
      simp [toggleLanguage, h]
    rw [heq]
    refine ⟨by simp [setLang_lang], ?_⟩
    simpa using setLang_displaysMatch "en" s hd

/-- Witness for C5 on the concrete state `frenchState`. -/
theorem toggleLanguage_spec_witness :
    toggleLanguage frenchState =
        setLang (if frenchState.doc.lang = "fr" then "en" else "fr") frenchState ∧
    (frenchState.doc.lang = "fr" →
      (toggleLanguage frenchState).doc.lang = "en" ∧
        displaysMatch "en" (toggleLanguage frenchState).doc.elems) :=
  toggleLanguage_spec frenchState (by decide)

theorem setTextById_noDual (i t : String) (es : List Elem)
    (hd : noDualTags es) : noDualTags (setTextById i t es) := by
  induction es with
  | nil => simpa [setTextById] using hd
  | cons e rest ih =>
    have he : e.isFr = true → e.isEn = false := hd e (by simp)
    have hrest : noDualTags rest := fun a ha => hd a (by simp [ha])
    intro a ha
    by_cases hid : e.id = some i
    · simp only [setTextById, if_pos hid, List.mem_cons] at ha
      rcases ha with rfl | ha
      · exact he
      · exact hrest a ha
    · simp only [setTextById, if_neg hid, List.mem_cons] at ha
      rcases ha with rfl | ha
      · exact he
      · exact ih hrest a ha

theorem init_eq (year : Nat) (s : State) :
    init year s =
      setLang
        (if (if s.store.getThrows then some "en" else s.store.val) = some "fr"
          then "fr" else "en")
        (stamped year s) := rfl

theorem stamped_noDual (year : Nat) (s : State) (hd : noDualTags s.doc.elems) :
    noDualTags (stamped year s).doc.elems :=
  setTextById_noDual _ _ _ (setTextById_noDual _ _ _ hd)

/-- Claim C3: if the storage read of `init` throws, or the stored value is
absent, or it is any string other than `'fr'`, then `init` applies English:
the language attribute becomes `'en'`, the English-tagged elements become
visible and the French-tagged ones hidden. -/
theorem init_defaults_to_english (year : Nat) (s : State)
    (hd : noDualTags s.doc.elems)
    (h : s.store.getThrows = true ∨ s.store.val = none ∨
          (∀ v, s.store.val = some v → v ≠ "fr")) :
    (init year s).doc.lang = "en" ∧ displaysMatch "en" (init year s).doc.elems := by
  have hne : (if s.store.getThrows then some "en" else s.store.val) ≠ some "fr" := by
    rcases h with h | h | h
    · simp [h]
    · by_cases hg : s.store.getThrows <;> simp [hg, h]
    · by_cases hg : s.store.getThrows
      · simp [hg]
      · simp only [hg, if_false, Bool.false_eq_true]
        intro hc
        exact h "fr" hc rfl
  rw [init_eq, if_neg hne]
  refine ⟨by simp [setLang_lang], ?_⟩
  simpa using setLang_displaysMatch "en" (stamped year s) (stamped_noDual year s hd)

/-- Witness for C3 on `unreadableState` (the read throws even though `'fr'`
is stored) with year 2026. -/
theorem init_defaults_to_english_witness :
    (init 2026 unreadableState).doc.lang = "en" ∧
      displaysMatch "en" (init 2026 unreadableState).doc.elems :=
  init_defaults_to_english 2026 unreadableState (by decide) (Or.inl (by decide))

/-- Claim C6: when the stored preference reads back as the string `'fr'`,
`init` applies French: French-tagged elements visible, English-tagged ones
hidden, language attribute `'fr'`. -/
theorem init_restores_french (year : Nat) (s : State)
    (hd : noDualTags s.doc.elems)
    (hget : s.store.getThrows = false) (hval : s.store.val = some "fr") :
    (init year s).doc.lang = "fr" ∧ displaysMatch "fr" (init year s).doc.elems := by
  have hsaved : (if s.store.getThrows then some "en" else s.store.val) = some "fr" := by
    simp [hget, hval]
  rw [init_eq, if_pos hsaved]
  refine ⟨by simp [setLang_lang], ?_⟩
  simpa using setLang_displaysMatch "fr" (stamped year s) (stamped_noDual year s hd)

/-- Witness for C6 on `storedFrenchState` with year 2026. -/
theorem init_restores_french_witness :
    (init 2026 storedFrenchState).doc.lang = "fr" ∧
      displaysMatch "fr" (init 2026 storedFrenchState).doc.elems :=
  init_restores_french 2026 storedFrenchState (by decide) (by decide) (by decide)

theorem setLang_invariant (v : String) (s : State) (hd : noDualTags s.doc.elems) :
    langInvariant (setLang v s) := by
  refine ⟨?_, ?_⟩
  · rw [setLang_lang]
    by_cases h : v = "fr" <;> simp [h]
  · rw [setLang_lang]
    exact setLang_displaysMatch v s hd

/-- Claim C7: after any of the three operations, exactly one language is
active: the document language attribute is `'en'` or `'fr'`, the elements
tagged for it are visible and the elements tagged for the other language are
hidden — regardless of the prior state, so the invariant is preserved by
every operation. -/
theorem operations_establish_invariant (v : String) (year : Nat) (s : State)
    (hd : noDualTags s.doc.elems) :
    langInvariant (setLang v s) ∧ langInvariant (toggleLanguage s) ∧
      langInvariant (init year s) := by
  refine ⟨setLang_invariant v s hd, ?_, ?_⟩
  · show langInvariant
      (setLang (if (if s.doc.lang = "fr" then "fr" else "en") = "fr"
                  then "en" else "fr") s)
    exact setLang_invariant _ s hd
  · rw [init_eq]
    exact setLang_invariant _ (stamped year s) (stamped_noDual year s hd)

/-- Witness for C7 at `v = "fr"`, year 2026, on `sampleState`. -/
theorem operations_establish_invariant_witness :
    langInvariant (setLang "fr" sampleState) ∧
      langInvariant (toggleLanguage sampleState) ∧
      langInvariant (init 2026 sampleState) :=
  operations_establish_invariant "fr" 2026 sampleState (by decide)

theorem setLang_setLang (v w : String) (s : State) :
    setLang v (setLang w s) = setLang v s := by
  rcases s with ⟨⟨es, L⟩, ⟨sv, g, st⟩⟩
  have hmap : ∀ b c : Bool,
      (es.map (updateDisplays c)).map (updateDisplays b) = es.map (updateDisplays b) := by
    intro b c
    rw [List.map_map]
    refine List.map_congr_left ?_
    intro a _
    exact updateDisplays_comp b c a
  cases st <;> simp [setLang, hmap]

/-- Counterexample to claim C2 as stated: starting from `mismatchedState`,
two successive calls of `toggleLanguage` do not return the visible set to
its original state — the display values of the language-tagged elements
differ from what they were at the first read of the language attribute. -/
theorem toggle_twice_counterexample :
    (toggleLanguage (toggleLanguage mismatchedState)).doc.elems.map Elem.display ≠
      mismatchedState.doc.elems.map Elem.display := by
  decide

/-- Claim C2, amended: two successive `toggleLanguage` calls are equivalent
to a single `applyLanguage` of the language obtained from the first read of
the language attribute (`'fr'` when the attribute was `'fr'`, otherwise
`'en'`).  Hence the visible set is restored exactly when it already agreed
with that attribute, but not from an arbitrary starting document state. -/
theorem toggle_twice_eq_apply_initial (s : State) :
    toggleLanguage (toggleLanguage s) =
      setLang (if s.doc.lang = "fr" then "fr" else "en") s := by
  by_cases h : s.doc.lang = "fr"
  · have h1 : toggleLanguage s = setLang "en" s := by
      simp [toggleLanguage, h]
    have h2 : (setLang "en" s).doc.lang = "en" := by
      simp [setLang_lang]
    have h3 : toggleLanguage (setLang "en" s) = setLang "fr" (setLang "en" s) := by
      simp [toggleLanguage, h2]
    rw [h1, h3, setLang_setLang, if_pos h]
  · have h1 : toggleLanguage s = setLang "fr" s := by
      simp [toggleLanguage, h]
    have h2 : (setLang "fr" s).doc.lang = "fr" := by
      simp [setLang_lang]
    have h3 : toggleLanguage (setLang "fr" s) = setLang "en" (setLang "fr" s) := by
      simp [toggleLanguage, h2]
    rw [h1, h3, setLang_setLang, if_neg h]

theorem forall₂_untouched_map (b : Bool) (es : List Elem) :
    List.Forall₂ untouched es (es.map (updateDisplays b)) := by
  rw [List.forall₂_map_right_iff, List.forall₂_same]
  intro x _
  refine ⟨(updateDisplays_id b x).symm, (updateDisplays_text b x).symm,
    (updateDisplays_isFr b x).symm, (updateDisplays_isEn b x).symm, ?_⟩
  intro hf he
  rw [updateDisplays_untagged b x hf he]

/-- Claim C10 (frame condition): `setLang` and `toggleLanguage` keep every
element in place, never change any id, text content or language tag (so in
particular the year-display elements are untouched), leave the display of
every element tagged for neither language unchanged, and touch nothing in
storage beyond the value of the single preference key. -/
theorem language_ops_frame (v : String) (s : State) :
    List.Forall₂ untouched s.doc.elems (setLang v s).doc.elems ∧
    List.Forall₂ untouched s.doc.elems (toggleLanguage s).doc.elems ∧
    (setLang v s).store.getThrows = s.store.getThrows ∧
    (setLang v s).store.setThrows = s.store.setThrows ∧
    (toggleLanguage s).store.getThrows = s.store.getThrows ∧
    (toggleLanguage s).store.setThrows = s.store.setThrows := by
  have helems : ∀ w : String,
      List.Forall₂ untouched s.doc.elems (setLang w s).doc.elems := by
    intro w
    exact forall₂_untouched_map _ s.doc.elems
  have hstore : ∀ w : String,
      (setLang w s).store.getThrows = s.store.getThrows ∧
        (setLang w s).store.setThrows = s.store.setThrows := by
    intro w
    by_cases hs : s.store.setThrows <;> simp [setLang, hs]
  refine ⟨helems v, ?_, (hstore v).1, (hstore v).2, ?_, ?_⟩
  · show List.Forall₂ untouched s.doc.elems
      (setLang (if (if s.doc.lang = "fr" then "fr" else "en") = "fr"
                  then "en" else "fr") s).doc.elems
    exact helems _
  · show (setLang (if (if s.doc.lang = "fr" then "fr" else "en") = "fr"
            then "en" else "fr") s).store.getThrows = s.store.getThrows
    exact (hstore _).1
  · show (setLang (if (if s.doc.lang = "fr" then "fr" else "en") = "fr"
            then "en" else "fr") s).store.setThrows = s.store.setThrows
    exact (hstore _).2

theorem getTextById_map_updateDisplays (i : String) (b : Bool) (es : List Elem) :
    getTextById i (es.map (updateDisplays b)) = getTextById i es := by
  induction es with
  | nil => rfl
  | cons e rest ih =>
    simp only [List.map_cons, getTextById, updateDisplays_id, updateDisplays_text, ih]

theorem getTextById_setTextById_same (i t : String) (es : List Elem) :
    getTextById i (setTextById i t es) =
      Option.map (fun _ => t) (getTextById i es) := by
  induction es with
  | nil => rfl
  | cons e rest ih =>
    by_cases hid : e.id = some i
    · simp [setTextById, getTextById, hid]
    · simp [setTextById, getTextById, hid, ih]

theorem getTextById_setTextById_other (i j t : String) (hne : i ≠ j)
    (es : List Elem) :
    getTextById i (setTextById j t es) = getTextById i es := by
  induction es with
  | nil => rfl
  | cons e rest ih =>
    by_cases hj : e.id = some j
    · have hi : e.id ≠ some i := by
        rw [hj]
        intro hc
        exact hne (by injection hc with h; exact h.symm)
      simp [setTextById, getTextById, hj, hi, Ne.symm hne]
    · by_cases hi : e.id = some i
      · simp [setTextById, getTextById, hj, hi, hne]
      · simp [setTextById, getTextById, hj, hi, ih]

/-- Exact digit count of `Nat.toDigitsCore` in base 10: with enough fuel the
output extends the accumulator by `log₁₀ n + 1` characters. -/
theorem toDigitsCore_length_eq :
    ∀ (f n : Nat) (acc : List Char), 0 < f → n < 10 ^ f →
      (Nat.toDigitsCore 10 f n acc).length = acc.length + Nat.log 10 n + 1 := by
  intro f
  induction f with
  | zero => intro n acc h _; omega
  | succ f ih =>
    intro n acc _ hn
    by_cases h0 : n / 10 = 0
    · have hn10 : n < 10 := by omega
      have hlog : Nat.log 10 n = 0 := Nat.log_eq_zero_iff.mpr (Or.inl hn10)
      simp [Nat.toDigitsCore, h0, hlog]
    · have hnpos : 10 ≤ n := by
        by_contra hlt
        push_neg at hlt
        omega
      have hfpos : 0 < f := by
        rcases Nat.eq_zero_or_pos f with rfl | h
        · norm_num at hn
          omega
        · exact h
      have hdiv : n / 10 < 10 ^ f := by
        rw [Nat.div_lt_iff_lt_mul (by norm_num : 0 < 10)]
        calc n < 10 ^ (f + 1) := hn
          _ = 10 ^ f * 10 := by rw [pow_succ]
      have hrec := ih (n / 10) (Nat.digitChar (n % 10) :: acc) hfpos hdiv
      have hlog : Nat.log 10 (n / 10) = Nat.log 10 n - 1 := Nat.log_div_base 10 n
      have hlogpos : 0 < Nat.log 10 n := Nat.log_pos (by norm_num) hnpos
      simp only [Nat.toDigitsCore, if_neg h0]
      rw [hrec, hlog]
      simp only [List.length_cons]
      omega

/-- `String(year)` has exactly four characters for every four-digit year. -/
theorem toString_year_length (n : Nat) (h1 : 1000 ≤ n) (h2 : n < 10000) :
    (toString n).length = 4 := by
  have hlt : n < 10 ^ (n + 1) := by
    calc n < 2 ^ n := Nat.lt_two_pow n
      _ ≤ 10 ^ n := Nat.pow_le_pow_left (by norm_num) n
      _ ≤ 10 ^ (n + 1) := Nat.pow_le_pow_right (by norm_num) (Nat.le_succ n)
  have hcore := toDigitsCore_length_eq (n + 1) n [] (Nat.succ_pos n) hlt
  have hlog : Nat.log 10 n = 3 := by
    refine Nat.log_eq_of_pow_le_of_lt_pow ?_ ?_
    · norm_num
      omega
    · norm_num
      omega
  have hstr : (toString n).length = (Nat.toDigitsCore 10 (n + 1) n []).length := rfl
  rw [hstr, hcore, hlog]
  simp

/-- Claim C8: after `init`, each year-display element that is present (id
`year` for the English footer, id `year-fr` for the French one) holds the
current calendar year as its text, that text has exactly four characters
for any four-digit year, and an absent year element is simply skipped. -/
theorem init_stamps_year (year : Nat) (s : State)
    (h1 : 1000 ≤ year) (h2 : year < 10000) :
    ((getTextById "year" s.doc.elems).isSome = true →
        getTextById "year" (init year s).doc.elems = some (toString year)) ∧
    ((getTextById "year-fr" s.doc.elems).isSome = true →
        getTextById "year-fr" (init year s).doc.elems = some (toString year)) ∧
    (getTextById "year" s.doc.elems = none →
        getTextById "year" (init year s).doc.elems = none) ∧
    (getTextById "year-fr" s.doc.elems = none →
        getTextById "year-fr" (init year s).doc.elems = none) ∧
    (toString year).length = 4 := by
  have hne : ("year" : String) ≠ "year-fr" := by decide
  have hne2 : ("year-fr" : String) ≠ "year" := by decide
  have hyr : getTextById "year" (init year s).doc.elems =
      Option.map (fun _ => toString year) (getTextById "year" s.doc.elems) := by
    rw [init_eq]
    show getTextById "year"
        ((stamped year s).doc.elems.map (updateDisplays _)) = _
    rw [getTextById_map_updateDisplays]
    show getTextById "year"
        (setTextById "year-fr" (toString year)
          (setTextById "year" (toString year) s.doc.elems)) = _
    rw [getTextById_setTextById_other _ _ _ hne, getTextById_setTextById_same]
  have hyrfr : getTextById "year-fr" (init year s).doc.elems =
      Option.map (fun _ => toString year) (getTextById "year-fr" s.doc.elems) := by
    rw [init_eq]
    show getTextById "year-fr"
        ((stamped year s).doc.elems.map (updateDisplays _)) = _
    rw [getTextById_map_updateDisplays]
    show getTextById "year-fr"
        (setTextById "year-fr" (toString year)
          (setTextById "year" (toString year) s.doc.elems)) = _
    rw [getTextById_setTextById_same, getTextById_setTextById_other _ _ _ hne2]
  refine ⟨?_, ?_, ?_, ?_, toString_year_length year h1 h2⟩
  · intro hsome
    rw [hyr]
    rcases hopt : getTextById "year" s.doc.elems with _ | t
    · rw [hopt] at hsome
      simp at hsome
    · rfl
  · intro hsome
    rw [hyrfr]
    rcases hopt : getTextById "year-fr" s.doc.elems with _ | t
    · rw [hopt] at hsome
      simp at hsome
    · rfl
  · intro hnone
    rw [hyr, hnone]
    rfl
  · intro hnone
    rw [hyrfr, hnone]
    rfl

/-- Witness for C8 at year 2026 on `sampleState`, whose document contains
both year elements. -/
theorem init_stamps_year_witness :
    ((getTextById "year" sampleState.doc.elems).isSome = true →
        getTextById "year" (init 2026 sampleState).doc.elems = some (toString 2026)) ∧
    ((getTextById "year-fr" sampleState.doc.elems).isSome = true →
        getTextById "year-fr" (init 2026 sampleState).doc.elems = some (toString 2026)) ∧
    (getTextById "year" sampleState.doc.elems = none →
        getTextById "year" (init 2026 sampleState).doc.elems = none) ∧
    (getTextById "year-fr" sampleState.doc.elems = none →
        getTextById "year-fr" (init 2026 sampleState).doc.elems = none) ∧
    (toString 2026).length = 4 :=
  init_stamps_year 2026 sampleState (by norm_num) (by norm_num)

end Portfolio
